import Mathlib

/-!
Shallow embedding of the biliard-backend live-match core (src/api/models.py,
src/api/consumers.py, src/api/utils.py) and proofs of the frozen claims.

Conventions of the embedding:
* Django model rows become Lean structures carrying their primary key `id`.
* The database becomes an explicit `DB` record threaded through the handlers.
* A `List` of events stands for the frame's event membership ordered by
  `timestamp` (the code always queries `order_by('timestamp')`); ties keep
  insertion order, matching a stable sort.
* Python truthiness checks on optional values (`if frame_id:`, `if token:`,
  `if player1_group and ...`) are modelled explicitly (`none`/`0`/`""` falsy).
* Exceptions caught by the broad `except` blocks become the `none` / `.err`
  return paths of the corresponding handler.
-/

namespace Biliard

/-- The nine event type constants of `MatchEvent` (models.py). -/
inductive EventType
  | frame_start
  | frame_end
  | next_player
  | score_update
  | balls_potted
  | faul
  | faul_and_next_player
  | cue_ball_left_table
  | cue_ball_gets_positioned
  deriving DecidableEq, Repr

/-- One entry of the module-level `balls` list (models.py): only the fields
that exist in the source dictionaries. `full` is absent on the cue ball. -/
structure Ball where
  id : String
  name : String
  color : String
  full : Option Bool
  deriving DecidableEq, Repr

/-- The `balls` list of models.py (Hungarian display names kept verbatim). -/
def balls : List Ball :=
  [ { id := "cue", name := "Kijátszó golyó", color := "white", full := none },
    { id := "1", name := "1-es golyó", color := "yellow", full := some true },
    { id := "2", name := "2-es golyó", color := "blue", full := some true },
    { id := "3", name := "3-as golyó", color := "red", full := some true },
    { id := "4", name := "4-es golyó", color := "purple", full := some true },
    { id := "5", name := "5-ös golyó", color := "orange", full := some true },
    { id := "6", name := "6-os golyó", color := "green", full := some true },
    { id := "7", name := "7-es golyó", color := "maroon", full := some true },
    { id := "8", name := "8-as golyó", color := "black", full := some true },
    { id := "9", name := "9-es golyó", color := "yellow", full := some false },
    { id := "10", name := "10-es golyó", color := "blue", full := some false },
    { id := "11", name := "11-es golyó", color := "red", full := some false },
    { id := "12", name := "12-es golyó", color := "purple", full := some false },
    { id := "13", name := "13-as golyó", color := "orange", full := some false },
    { id := "14", name := "14-es golyó", color := "green", full := some false },
    { id := "15", name := "15-ös golyó", color := "maroon", full := some false } ]

/-- A `MatchEvent` row (models.py). `timestamp` is the `auto_now_add` clock
value as a natural number; `ball_ids` models the JSON list field, with `[]`
standing for both an empty list and JSON null (identical Python truthiness). -/
structure MatchEvent where
  id : Nat
  eventType : EventType
  timestamp : Nat
  details : String
  turn_number : Option Nat
  player_id : Option Nat
  ball_ids : List String
  deriving DecidableEq, Repr

/-- A `Frame` row (models.py); `events` is the many-to-many membership as a
list of event ids in insertion order. -/
structure Frame where
  id : Nat
  match_id : Nat
  frame_number : Nat
  winner : Option Nat
  player1_ball_group : Option String
  player2_ball_group : Option String
  events : List Nat
  deriving DecidableEq, Repr

/-- A `Match` row (models.py). `Match` is a reserved word in Lean, hence
`MatchRec`. `match_date` is an abstract timestamp. -/
structure MatchRec where
  id : Nat
  player1 : Nat
  player2 : Nat
  match_date : Option Nat
  frames_to_win : Nat
  deriving DecidableEq, Repr

/-- A `Profile` row (models.py): only the fields the consumers touch. -/
structure Profile where
  id : Nat
  user : Option Nat
  is_biro : Bool
  deriving DecidableEq, Repr

/-- The persistent store: the rows of each table, a token → user resolution
table standing for JWT decoding plus the `auth.User` lookup, the next
auto-increment keys, and the `auto_now_add` clock. -/
structure DB where
  profiles : List Profile
  match_list : List MatchRec
  frames : List Frame
  events : List MatchEvent
  token_users : List (String × Nat)
  next_event_id : Nat
  next_frame_id : Nat
  now : Nat
  deriving DecidableEq, Repr

/-- `Match.objects.get(id=mid)` as a total lookup. -/
def getMatch (db : DB) (mid : Nat) : Option MatchRec :=
  db.match_list.find? (fun m => m.id = mid)

/-- `Frame.objects.get(id=fid)` (no match filter — used by `create_match_event`). -/
def getFrame (db : DB) (fid : Nat) : Option Frame :=
  db.frames.find? (fun f => f.id = fid)

/-- `Frame.objects.get(id=fid, match_id=mid)` — the joint lookup used by
`undo_last_event`, `remove_events_from_frame`, `clear_frame_events` and
`set_frame_ball_groups`. -/
def getFrameInMatch (db : DB) (fid mid : Nat) : Option Frame :=
  db.frames.find? (fun f => f.id = fid ∧ f.match_id = mid)

/-- `MatchEvent.objects.get(id=eid)`. -/
def getEvent (db : DB) (eid : Nat) : Option MatchEvent :=
  db.events.find? (fun e => e.id = eid)

/-- `frame.save()` after mutating a frame object: replace the row by key. -/
def setFrame (db : DB) (f : Frame) : DB :=
  { db with frames := db.frames.map (fun x => if x.id = f.id then f else x) }

/-- `match.save()` after mutating a match object. -/
def setMatch (db : DB) (m : MatchRec) : DB :=
  { db with match_list := db.match_list.map (fun x => if x.id = m.id then m else x) }

/-- `frame.events.add(event)`: many-to-many add, a no-op when already present. -/
def attachEvent (db : DB) (fid eid : Nat) : DB :=
  { db with frames := db.frames.map (fun f =>
      if f.id = fid then
        (if eid ∈ f.events then f else { f with events := f.events ++ [eid] })
      else f) }

/-- `frame.events.remove(event)`: drop the membership pair. -/
def detachEvent (db : DB) (fid eid : Nat) : DB :=
  { db with frames := db.frames.map (fun f =>
      if f.id = fid then { f with events := f.events.filter (fun i => ¬ i = eid) }
      else f) }

/-- `event.delete()`: removing the row also removes every many-to-many
membership pair referencing it (Django cascades through the through-table). -/
def deleteEvent (db : DB) (eid : Nat) : DB :=
  { db with
      events := db.events.filter (fun e => ¬ e.id = eid),
      frames := db.frames.map (fun f =>
        { f with events := f.events.filter (fun i => ¬ i = eid) }) }

/-! ### Projection engine (models.py, `Frame.get_balls_on_table` and
`Frame.return_events_as_turns`)

Both methods iterate `self.events.all().order_by('timestamp')`; the input
list below is that ordered sequence. -/

/-- Python dict assignment `d[k] = v`: overwrite when the key is present,
append a new entry otherwise (insertion-ordered dicts). -/
def dictSet (d : List (String × Bool)) (k : String) (v : Bool) : List (String × Bool) :=
  if d.any (fun p => p.1 = k) then
    d.map (fun p => if p.1 = k then (k, v) else p)
  else d ++ [(k, v)]

/-- The initial comprehension of `get_balls_on_table`:
`{ball['id']: True for ball in balls if ball['id'] != 'cue'}`. -/
def initialTable : List (String × Bool) :=
  (balls.filter (fun b => ¬ b.id = "cue")).map (fun b => (b.id, true))

/-- The body of the event loop of `get_balls_on_table` for one event. -/
def applyEventToTable (d : List (String × Bool)) (e : MatchEvent) : List (String × Bool) :=
  if e.eventType = EventType.balls_potted ∧ ¬ e.ball_ids = [] then
    e.ball_ids.foldl (fun d ball_id => dictSet d ball_id false) d
  else d

/-- The ball dictionary after processing all events in timestamp order. -/
def tableAfter (events : List MatchEvent) : List (String × Bool) :=
  events.foldl applyEventToTable initialTable

/-- `Frame.get_balls_on_table` (models.py): the ids whose dict value is
still `True`, in dict insertion order. -/
def get_balls_on_table (events : List MatchEvent) : List String :=
  ((tableAfter events).filter (fun p => p.2)).map (fun p => p.1)

/-- The loop of `Frame.return_events_as_turns`: `current` is `current_turn`,
`turns` the accumulator. A `next_player` event with a nonempty current turn
closes that turn; every event is then appended to the current turn. -/
def return_events_as_turns_go (events : List MatchEvent)
    (current : List MatchEvent) (turns : List (List MatchEvent)) :
    List (List MatchEvent) :=
  match events with
  | [] => if current = [] then turns else turns ++ [current]
  | e :: rest =>
    if e.eventType = EventType.next_player ∧ ¬ current = [] then
      return_events_as_turns_go rest [e] (turns ++ [current])
    else
      return_events_as_turns_go rest (current ++ [e]) turns

/-- `Frame.return_events_as_turns` (models.py). -/
def return_events_as_turns (events : List MatchEvent) : List (List MatchEvent) :=
  return_events_as_turns_go events [] []

/-! ### Scorekeeper command handlers (consumers.py, `BiroMatchAdminConsumer`) -/

/-- The `event_data` payload of a `create_event` command, with the defaults of
`event_data.get(...)` already applied (`details` defaults to `""`,
`ball_ids` to `[]`). -/
structure EventData where
  eventType : EventType
  details : String
  turn_number : Option Nat
  player_id : Option Nat
  ball_ids : List String
  frame_id : Option Nat
  deriving DecidableEq, Repr

/-- The row `MatchEvent.objects.create(...)` inserts for the given payload:
fresh auto-increment id and `auto_now_add` timestamp. -/
def mkEvent (db : DB) (ed : EventData) : MatchEvent :=
  { id := db.next_event_id, eventType := ed.eventType, timestamp := db.now,
    details := ed.details, turn_number := ed.turn_number,
    player_id := ed.player_id, ball_ids := ed.ball_ids }

/-- `create_match_event` (consumers.py:450-471). The event row is inserted
first; only then is the frame looked up by id alone (`Frame.objects.get(id=
frame_id)`), so a bad `frame_id` raises after the insert and the broad
`except` returns `none` while the orphan event row stays in the store.
`if frame_id:` is Python truthiness: `none` and `0` skip the attach. -/
def create_match_event (db : DB) (ed : EventData) : Option MatchEvent × DB :=
  let ev := mkEvent db ed
  let db1 := { db with events := db.events ++ [ev],
                       next_event_id := db.next_event_id + 1 }
  match ed.frame_id with
  | some fid =>
    if ¬ fid = 0 then
      match getFrame db1 fid with
      | some _ => (some ev, attachEvent db1 fid ev.id)
      | none => (none, db1)
    else (some ev, db1)
  | none => (some ev, db1)

/-- `match.match_frames.filter(winner=<player>).count()`: the number of
frames of the match won by the given profile. -/
def player_wins (db : DB) (mid pid : Nat) : Nat :=
  (db.frames.filter (fun f => f.match_id = mid ∧ f.winner = some pid)).length

/-- `create_frame` (consumers.py:473-502): the best-of-N gate followed by the
insert. `frames_needed_to_win = (frames_to_win + 1) // 2`; the win check runs
first, then the even/draw check, and both deny by returning `None`. -/
def create_frame (db : DB) (mid : Nat) (frame_number_arg : Option Nat) :
    Option Frame × DB :=
  match getMatch db mid with
  | none => (none, db)
  | some m =>
    if player_wins db mid m.player1 ≥ (m.frames_to_win + 1) / 2
        ∨ player_wins db mid m.player2 ≥ (m.frames_to_win + 1) / 2 then
      (none, db)
    else if m.frames_to_win % 2 = 0
        ∧ player_wins db mid m.player1 + player_wins db mid m.player2 ≥ m.frames_to_win then
      (none, db)
    else
      let fr : Frame :=
        { id := db.next_frame_id, match_id := mid,
          frame_number := frame_number_arg.getD
            ((db.frames.filter (fun f => f.match_id = mid)).length + 1),
          winner := none, player1_ball_group := none,
          player2_ball_group := none, events := [] }
      (some fr, { db with frames := db.frames ++ [fr],
                          next_frame_id := db.next_frame_id + 1 })

/-- `end_frame` (consumers.py:504-515): frame looked up by id alone;
`if winner_id:` is Python truthiness (`none` and `0` skip the write). -/
def end_frame (db : DB) (frame_id winner_id : Option Nat) : Option Frame × DB :=
  match frame_id.bind (getFrame db) with
  | none => (none, db)
  | some f =>
    match winner_id with
    | some w =>
      if ¬ w = 0 then
        let f' := { f with winner := some w }
        (some f', setFrame db f')
      else (some f, db)
    | none => (some f, db)

/-- The `updates` payload of an `update_match` command; `some` means the key
was present in the JSON object. -/
structure MatchUpdates where
  match_date : Option Nat
  frames_to_win : Option Nat
  deriving DecidableEq, Repr

/-- `update_match` (consumers.py:517-533): in-place field merge then save. -/
def update_match (db : DB) (mid : Nat) (u : MatchUpdates) : Option MatchRec × DB :=
  match getMatch db mid with
  | none => (none, db)
  | some m =>
    let m1 := match u.match_date with
      | some d => { m with match_date := some d }
      | none => m
    let m2 := match u.frames_to_win with
      | some n => { m1 with frames_to_win := n }
      | none => m1
    (some m2, setMatch db m2)

/-- Success/failure result dicts of the removal handlers:
`{'success': True, 'data': ...}` / `{'success': False, 'message': ...}`. -/
inductive OpResult (α : Type)
  | ok (data : α)
  | err (message : String)
  deriving DecidableEq, Repr

/-- `OpResult.ok` recognizer. -/
def OpResult.isOk {α : Type} : OpResult α → Bool
  | .ok _ => true
  | .err _ => false

/-- The `data` dict broadcast by `remove_match_event`. -/
structure RemovedEventData where
  event_id : Nat
  frame_ids : List Nat
  deriving DecidableEq, Repr

/-- `remove_match_event` (consumers.py:535-563): fetch the event, verify some
frame of this match holds it, then detach from those frames and delete. -/
def remove_match_event (db : DB) (mid : Nat) (event_id : Option Nat) :
    OpResult RemovedEventData × DB :=
  match event_id.bind (getEvent db) with
  | none => (.err "Event not found", db)
  | some ev =>
    let frames := db.frames.filter (fun f => f.match_id = mid ∧ ev.id ∈ f.events)
    if frames = [] then
      (.err "Event not found in this match", db)
    else
      let event_data : RemovedEventData :=
        { event_id := ev.id, frame_ids := frames.map Frame.id }
      let db1 := frames.foldl (fun acc f => detachEvent acc f.id ev.id) db
      (.ok event_data, deleteEvent db1 ev.id)

/-- The `data` dict of `undo_last_event`. -/
structure UndoData where
  event_id : Nat
  frame_id : Nat
  event_type : EventType
  deriving DecidableEq, Repr

/-- `frame.events.order_by('-timestamp').first()`: the earliest-inserted
event attaining the maximal timestamp (stable descending sort, then head). -/
def lastEventByTimestamp : List MatchEvent → Option MatchEvent
  | [] => none
  | e :: rest =>
    match lastEventByTimestamp rest with
    | none => some e
    | some b => if b.timestamp > e.timestamp then some b else some e

/-- `undo_last_event` (consumers.py:565-592): frame resolved jointly by id
and match id; the greatest-timestamp event is detached and deleted. -/
def undo_last_event (db : DB) (mid : Nat) (frame_id : Option Nat) :
    OpResult UndoData × DB :=
  match frame_id with
  | none => (.err "Frame not found", db)
  | some fid =>
    match getFrameInMatch db fid mid with
    | none => (.err "Frame not found", db)
    | some f =>
      match lastEventByTimestamp (db.events.filter (fun e => e.id ∈ f.events)) with
      | none => (.err "No events to undo in this frame", db)
      | some last =>
        (.ok { event_id := last.id, frame_id := fid, event_type := last.eventType },
         deleteEvent (detachEvent db f.id last.id) last.id)

/-- The `data` dict of `remove_events_from_frame`. -/
structure RemovedEventsData where
  frame_id : Nat
  removed_event_ids : List Nat
  count : Nat
  deriving DecidableEq, Repr

/-- The loop body of `remove_events_from_frame` for one candidate event id:
skip ids that resolve to no event, skip ids not currently in the frame,
otherwise detach and delete, recording the id. -/
def removeOneFromFrame (fid : Nat) (st : DB × List Nat) (eid : Nat) : DB × List Nat :=
  let (db, removed) := st
  match getEvent db eid with
  | none => (db, removed)
  | some ev =>
    match getFrame db fid with
    | some fcur =>
      if eid ∈ fcur.events then
        (deleteEvent (detachEvent db fid ev.id) ev.id, removed ++ [eid])
      else (db, removed)
    | none => (db, removed)

/-- `remove_events_from_frame` (consumers.py:594-624): best-effort loop;
frame resolved jointly by id and match id. -/
def remove_events_from_frame (db : DB) (mid : Nat) (frame_id : Option Nat)
    (event_ids : List Nat) : OpResult RemovedEventsData × DB :=
  match frame_id with
  | none => (.err "Frame not found", db)
  | some fid =>
    match getFrameInMatch db fid mid with
    | none => (.err "Frame not found", db)
    | some f =>
      let st := event_ids.foldl (removeOneFromFrame f.id) (db, [])
      (.ok { frame_id := fid, removed_event_ids := st.2, count := st.2.length }, st.1)

/-- The `data` dict of `clear_frame_events`. -/
structure ClearedEventsData where
  frame_id : Nat
  cleared_event_ids : List Nat
  count : Nat
  deriving DecidableEq, Repr

/-- `clear_frame_events` (consumers.py:626-650): frame resolved jointly by id
and match id; every attached event is detached and deleted. -/
def clear_frame_events (db : DB) (mid : Nat) (frame_id : Option Nat) :
    OpResult ClearedEventsData × DB :=
  match frame_id with
  | none => (.err "Frame not found", db)
  | some fid =>
    match getFrameInMatch db fid mid with
    | none => (.err "Frame not found", db)
    | some f =>
      let event_ids := f.events
      let db' := f.events.foldl (fun acc eid => deleteEvent (detachEvent acc f.id eid) eid) db
      (.ok { frame_id := fid, cleared_event_ids := event_ids,
             count := event_ids.length }, db')

/-- Whether an optional ball-group value passes
`if group and group in [BALL_GROUP_FULL, BALL_GROUP_STRIPED]:`
(Python truthiness plus membership in `{full, striped}`). -/
def validBallGroup : Option String → Bool
  | some g => ¬ g = "" ∧ (g = "full" ∨ g = "striped")
  | none => false

/-- `set_frame_ball_groups` (consumers.py:652-673): frame resolved jointly by
id and match id; each group field is written only when its value is truthy
and a member of `{full, striped}`; then the frame is saved. -/
def set_frame_ball_groups (db : DB) (mid : Nat) (frame_id : Option Nat)
    (player1_group player2_group : Option String) : Option Frame × DB :=
  match frame_id with
  | none => (none, db)
  | some fid =>
    match getFrameInMatch db fid mid with
    | none => (none, db)
    | some f =>
      let f1 := if validBallGroup player1_group then
          { f with player1_ball_group := player1_group } else f
      let f2 := if validBallGroup player2_group then
          { f1 with player2_ball_group := player2_group } else f1
      (some f2, setFrame db f2)
/-! ### Authentication gate (utils.py `get_profile_from_token` and
consumers.py `BiroMatchAdminConsumer.connect`) -/

/-- Python `str.split(sep)` for a one-character separator (keeps empty
pieces, `""` splits to `[""]`). -/
def splitChar (c : Char) : List Char → List (List Char)
  | [] => [[]]
  | x :: xs =>
    match splitChar c xs with
    | [] => if x = c then [[], []] else [[x]]
    | y :: ys => if x = c then [] :: y :: ys else (x :: y) :: ys

/-- The token-extraction loop of `connect` (consumers.py:144-149): the first
`&`-separated parameter starting with `token=` yields `param.split('=')[1]`. -/
def parseToken (query_string : String) : Option String :=
  (splitChar '&' query_string.toList).findSome? (fun param =>
    if ("token=".toList).isPrefixOf param then
      some (String.mk ((splitChar '=' param).getD 1 []))
    else none)

/-- `get_user_from_token` (utils.py:64-76): JWT decoding plus the
`auth.User` lookup, modelled as one resolution table. -/
def get_user_from_token (db : DB) (token_string : String) : Option Nat :=
  (db.token_users.find? (fun p => p.1 = token_string)).map (fun p => p.2)

/-- `get_profile_from_token` (utils.py:79-90). -/
def get_profile_from_token (db : DB) (token_string : String) : Option Profile :=
  match get_user_from_token db token_string with
  | some uid => db.profiles.find? (fun p => p.user = some uid)
  | none => none

/-- Outcome of a `BiroMatchAdminConsumer.connect` attempt: either the close
code passed to `self.close(code=...)`, or acceptance with the joined room
group name. -/
inductive ConnectResult
  | rejected (close_code : Nat)
  | accepted (profile_id : Nat) (room_group_name : String)
  deriving DecidableEq, Repr

/-- `BiroMatchAdminConsumer.connect` (consumers.py:136-186): no token (or an
empty one, `if not token:`) closes with 4001; a token resolving to no profile
closes with 4003; a profile without `is_biro` closes with 4003; otherwise the
session joins `biro_match_<match_id>` and is accepted. -/
def connect (db : DB) (query_string : String) (match_id : Nat) : ConnectResult :=
  match parseToken query_string with
  | none => .rejected 4001
  | some token =>
    if token = "" then .rejected 4001
    else
      match get_profile_from_token db token with
      | none => .rejected 4003
      | some profile =>
        if ¬ profile.is_biro then .rejected 4003
        else .accepted profile.id ("biro_match_" ++ toString match_id)

/-! ### The `receive` dispatcher (consumers.py:208-435) -/

/-- An inbound scorekeeper JSON command after parsing, with each handler's
payload fields extracted the way `receive` does (`data.get(...)`). -/
structure InboundMsg where
  action : Option String
  event_data : EventData
  frame_data : Option Nat
  frame_id : Option Nat
  winner_id : Option Nat
  event_id : Option Nat
  event_ids : List Nat
  updates : MatchUpdates
  player1_ball_group : Option String
  player2_ball_group : Option String
  deriving DecidableEq, Repr

/-- An outbound message emitted while handling one inbound command: either a
`channel_layer.group_send` to the named group, or a direct `self.send` to the
issuing session, carrying the payload's `type`, `success` and `message`
fields (`none` when the field is absent from the payload). -/
inductive OutMsg
  | broadcast (group : String) (msgType : String)
  | send (msgType : String) (success : Option Bool) (message : Option String)
  deriving DecidableEq, Repr

/-- `OutMsg.send` recognizer (direct acknowledgements to the sender). -/
def OutMsg.isSend : OutMsg → Bool
  | .send _ _ _ => true
  | .broadcast _ _ => false

/-- The direct acknowledgements among the outbound messages. -/
def acks (out : List OutMsg) : List OutMsg :=
  out.filter OutMsg.isSend

/-- The `if action == ... / elif ...` chain of `BiroMatchAdminConsumer.receive`
(consumers.py:217-420) for one parsed inbound command addressed to match
`mid`: the resulting store and the outbound messages in emission order.
Branches with no `self.send` call (including the fall-through for an
unrecognized action) emit no direct acknowledgement. -/
def dispatch (db : DB) (mid : Nat) (msg : InboundMsg) (action : String) :
    DB × List OutMsg :=
  if action = "create_event" then
      match create_match_event db msg.event_data with
      | (some _, db') =>
        (db', [.broadcast ("match_" ++ toString mid) "event_created",
               .send "event_created" (some true) none])
      | (none, db') => (db', [])
    else if action = "start_frame" then
      match create_frame db mid msg.frame_data with
      | (some _, db') => (db', [.broadcast ("match_" ++ toString mid) "frame_update"])
      | (none, db') => (db', [])
    else if action = "end_frame" then
      match end_frame db msg.frame_id msg.winner_id with
      | (some _, db') => (db', [.broadcast ("match_" ++ toString mid) "frame_update"])
      | (none, db') => (db', [])
    else if action = "update_match" then
      match update_match db mid msg.updates with
      | (some _, db') => (db', [.broadcast ("match_" ++ toString mid) "match_update"])
      | (none, db') => (db', [])
    else if action = "remove_event" then
      match remove_match_event db mid msg.event_id with
      | (.ok _, db') =>
        (db', [.broadcast ("match_" ++ toString mid) "event_removed",
               .send "event_removed" (some true) none])
      | (.err m, db') => (db', [.send "error" none (some m)])
    else if action = "undo_last_event" then
      match undo_last_event db mid msg.frame_id with
      | (.ok _, db') =>
        (db', [.broadcast ("match_" ++ toString mid) "event_removed",
               .send "event_removed" (some true) (some "Last event undone")])
      | (.err m, db') => (db', [.send "error" none (some m)])
    else if action = "remove_events_from_frame" then
      match remove_events_from_frame db mid msg.frame_id msg.event_ids with
      | (.ok _, db') =>
        (db', [.broadcast ("match_" ++ toString mid) "events_removed",
               .send "events_removed" (some true) none])
      | (.err m, db') => (db', [.send "error" none (some m)])
    else if action = "clear_frame_events" then
      match clear_frame_events db mid msg.frame_id with
      | (.ok _, db') =>
        (db', [.broadcast ("match_" ++ toString mid) "frame_events_cleared",
               .send "frame_events_cleared" (some true) none])
      | (.err m, db') => (db', [.send "error" none (some m)])
    else if action = "set_ball_groups" then
      match set_frame_ball_groups db mid msg.frame_id msg.player1_ball_group
              msg.player2_ball_group with
      | (some _, db') =>
        (db', [.broadcast ("match_" ++ toString mid) "frame_update",
               .send "ball_groups_set" (some true) none])
      | (none, db') => (db', [.send "error" none (some "Failed to set ball groups")])
  else (db, [])

/-- `BiroMatchAdminConsumer.receive` (consumers.py:208-435): a message whose
`action` key is absent falls through every branch and nothing is emitted;
otherwise the action chain runs. -/
def receive (db : DB) (mid : Nat) (msg : InboundMsg) : DB × List OutMsg :=
  match msg.action with
  | none => (db, [])
  | some action => dispatch db mid msg action
/-! ### Lemmas about the balls-on-table projection -/

/-- The keys of the entries whose value is still `True` — the final list
comprehension of `get_balls_on_table`. -/
def keysTrue (d : List (String × Bool)) : List String :=
  (d.filter (fun p => p.2)).map (fun p => p.1)

theorem get_balls_on_table_eq_keysTrue (events : List MatchEvent) :
    get_balls_on_table events = keysTrue (tableAfter events) := rfl

theorem keysTrue_overwrite (k : String) (d : List (String × Bool)) :
    keysTrue (d.map (fun p => if p.1 = k then (k, false) else p)) =
      (keysTrue d).filter (fun x => ¬ x = k) := by
  induction d with
  | nil => rfl
  | cons a t ih =>
    by_cases hk : a.1 = k
    · by_cases hv : a.2 = true <;>
        simp [keysTrue, hk, hv, List.filter] at ih ⊢ <;> exact ih
    · by_cases hv : a.2 = true <;>
        simp [keysTrue, hk, hv, List.filter] at ih ⊢ <;> simp [ih, hk]

theorem keysTrue_dictSet_false (k : String) (d : List (String × Bool)) :
    keysTrue (dictSet d k false) = (keysTrue d).filter (fun x => ¬ x = k) := by
  unfold dictSet
  split
  · exact keysTrue_overwrite k d
  · next h =>
    have hk : ∀ x ∈ keysTrue d, ¬ x = k := by
      intro x hx
      simp only [keysTrue, List.mem_map, List.mem_filter] at hx
      obtain ⟨p, ⟨hp, hv⟩, rfl⟩ := hx
      intro hxk
      have h' : (k, false) ∉ d ∧ (k, true) ∉ d := by simpa using h
      have hpk : p = (k, true) := by
        obtain ⟨p1, p2⟩ := p
        simp_all
      exact h'.2 (hpk ▸ hp)
    have h2 : keysTrue (d ++ [(k, false)]) = keysTrue d := by
      simp [keysTrue, List.filter_append]
    rw [h2, List.filter_eq_self.mpr]
    intro x hx
    simpa using hk x hx

theorem keysTrue_pot_fold (ids : List String) (d : List (String × Bool)) :
    keysTrue (ids.foldl (fun d ball_id => dictSet d ball_id false) d) =
      (keysTrue d).filter (fun x => ¬ x ∈ ids) := by
  induction ids generalizing d with
  | nil => simp
  | cons b rest ih =>
    rw [List.foldl_cons, ih, keysTrue_dictSet_false, List.filter_filter]
    apply List.filter_congr
    intro x _
    by_cases hb : x = b <;> by_cases hr : x ∈ rest <;> simp [hb, hr]

theorem keysTrue_applyEvent (d : List (String × Bool)) (e : MatchEvent) :
    keysTrue (applyEventToTable d e) =
      if e.eventType = EventType.balls_potted then
        (keysTrue d).filter (fun x => ¬ x ∈ e.ball_ids)
      else keysTrue d := by
  unfold applyEventToTable
  by_cases ht : e.eventType = EventType.balls_potted
  · by_cases hb : e.ball_ids = []
    · simp [ht, hb]
    · simp [ht, hb, keysTrue_pot_fold]
  · simp [ht]

theorem tableAfter_append_one (evs : List MatchEvent) (e : MatchEvent) :
    tableAfter (evs ++ [e]) = applyEventToTable (tableAfter evs) e := by
  simp [tableAfter, List.foldl_append]

theorem get_balls_on_table_step_sublist (evs : List MatchEvent) (e : MatchEvent) :
    (get_balls_on_table (evs ++ [e])).Sublist (get_balls_on_table evs) := by
  rw [get_balls_on_table_eq_keysTrue, get_balls_on_table_eq_keysTrue,
    tableAfter_append_one, keysTrue_applyEvent]
  split
  · exact List.filter_sublist _
  · exact List.Sublist.refl _
/-- A sample `balls_potted` event used by concrete witnesses. -/
def sampleBallsPotted : MatchEvent :=
  { id := 1, eventType := EventType.balls_potted, timestamp := 1, details := "",
    turn_number := none, player_id := none, ball_ids := ["1", "9"] }

/-- A sample `faul` event used by concrete witnesses. -/
def sampleFaul : MatchEvent :=
  { id := 2, eventType := EventType.faul, timestamp := 2, details := "",
    turn_number := none, player_id := none, ball_ids := [] }

/-- Claim C4: the `ballsOnTable` projection starts as the full 15-ball set
minus the cue ball, each `balls_potted` event removes exactly its `ball_ids`
(processed in timestamp order, i.e. list order), every other event type
leaves the set unchanged, and the projection is monotonically non-increasing
along any extension of the event sequence. -/
theorem balls_on_table_spec (evs : List MatchEvent) (e : MatchEvent) :
    get_balls_on_table [] =
      ["1", "2", "3", "4", "5", "6", "7", "8", "9", "10", "11", "12", "13", "14", "15"]
    ∧ (e.eventType = EventType.balls_potted →
        get_balls_on_table (evs ++ [e]) =
          (get_balls_on_table evs).filter (fun b => ¬ b ∈ e.ball_ids))
    ∧ (¬ e.eventType = EventType.balls_potted →
        get_balls_on_table (evs ++ [e]) = get_balls_on_table evs)
    ∧ ∀ evs2, (get_balls_on_table (evs ++ evs2)).Sublist (get_balls_on_table evs) := by
  refine ⟨by decide, ?_, ?_, ?_⟩
  · intro ht
    rw [get_balls_on_table_eq_keysTrue (evs ++ [e]), tableAfter_append_one,
      keysTrue_applyEvent]
    simp [ht, get_balls_on_table_eq_keysTrue]
  · intro ht
    rw [get_balls_on_table_eq_keysTrue (evs ++ [e]), tableAfter_append_one,
      keysTrue_applyEvent]
    simp [ht, get_balls_on_table_eq_keysTrue]
  · intro evs2
    induction evs2 generalizing evs with
    | nil => simp
    | cons e2 rest ih =>
      have h1 : evs ++ e2 :: rest = (evs ++ [e2]) ++ rest := by simp
      rw [h1]
      exact (ih (evs ++ [e2])).trans (get_balls_on_table_step_sublist evs e2)

/-- Witness for C4 at concrete inputs: potting balls 1 and 9 on a fresh frame
removes exactly those two, and a `faul` event changes nothing. -/
theorem balls_on_table_spec_witness :
    (get_balls_on_table ([] ++ [sampleBallsPotted]) =
       (get_balls_on_table []).filter (fun b => ¬ b ∈ sampleBallsPotted.ball_ids))
    ∧ (get_balls_on_table ([sampleBallsPotted] ++ [sampleFaul]) =
       get_balls_on_table [sampleBallsPotted]) :=
  ⟨(balls_on_table_spec [] sampleBallsPotted).2.1 rfl,
   (balls_on_table_spec [sampleBallsPotted] sampleFaul).2.2.1 (by decide)⟩
/-! ### Lemmas about the turns projection -/

/-- A run opens with a `next_player` event (in particular it is nonempty). -/
def headNextPlayer : List MatchEvent → Prop
  | [] => False
  | e :: _ => e.eventType = EventType.next_player

theorem turnsGo_flatten (events current acc) :
    (return_events_as_turns_go events current acc).flatten =
      acc.flatten ++ current ++ events := by
  induction events generalizing current acc with
  | nil =>
    unfold return_events_as_turns_go
    split
    · next h => simp [h]
    · simp
  | cons e rest ih =>
    unfold return_events_as_turns_go
    split
    · rw [ih]
      simp
    · rw [ih]
      simp

theorem turnsGo_shape (events current acc)
    (hacc_ne : ∀ seg ∈ acc, ¬ seg = [])
    (hacc_tail : ∀ seg ∈ acc, ∀ e ∈ seg.tail, ¬ e.eventType = EventType.next_player)
    (hcur_tail : ∀ e ∈ current.tail, ¬ e.eventType = EventType.next_player)
    (hacc_head : ∀ seg ∈ acc.drop 1, headNextPlayer seg)
    (hlink : ¬ acc = [] → headNextPlayer current) :
    (∀ seg ∈ return_events_as_turns_go events current acc, ¬ seg = []) ∧
    (∀ seg ∈ return_events_as_turns_go events current acc,
       ∀ e ∈ seg.tail, ¬ e.eventType = EventType.next_player) ∧
    (∀ seg ∈ (return_events_as_turns_go events current acc).drop 1,
       headNextPlayer seg) := by
  induction events generalizing current acc with
  | nil =>
    unfold return_events_as_turns_go
    split
    · exact ⟨hacc_ne, hacc_tail, hacc_head⟩
    · next hcur =>
      refine ⟨?_, ?_, ?_⟩
      · intro seg hseg
        rcases List.mem_append.mp hseg with h | h
        · exact hacc_ne seg h
        · simp only [List.mem_singleton] at h
          exact h ▸ hcur
      · intro seg hseg
        rcases List.mem_append.mp hseg with h | h
        · exact hacc_tail seg h
        · simp only [List.mem_singleton] at h
          exact h ▸ hcur_tail
      · intro seg hseg
        match hacc0 : acc with
        | [] => simp [hacc0] at hseg
        | a :: t =>
          have hseg' : seg ∈ t ++ [current] := hseg
          rcases List.mem_append.mp hseg' with h | h
          · exact hacc_head seg h
          · simp only [List.mem_singleton] at h
            exact h ▸ hlink (by simp)
  | cons e rest ih =>
    unfold return_events_as_turns_go
    split
    · next hcond =>
      apply ih [e] (acc ++ [current])
      · intro seg hseg
        rcases List.mem_append.mp hseg with h | h
        · exact hacc_ne seg h
        · simp only [List.mem_singleton] at h
          exact h ▸ hcond.2
      · intro seg hseg
        rcases List.mem_append.mp hseg with h | h
        · exact hacc_tail seg h
        · simp only [List.mem_singleton] at h
          exact h ▸ hcur_tail
      · intro x hx
        simp at hx
      · intro seg hseg
        match hacc0 : acc with
        | [] => simp [hacc0] at hseg
        | a :: t =>
          have hseg' : seg ∈ t ++ [current] := hseg
          rcases List.mem_append.mp hseg' with h | h
          · exact hacc_head seg h
          · simp only [List.mem_singleton] at h
            exact h ▸ hlink (by simp)
      · intro _
        exact hcond.1
    · next hcond =>
      apply ih (current ++ [e]) acc hacc_ne hacc_tail
      · intro x hx
        match hcur0 : current with
        | [] =>
          have hx' : x ∈ ([] : List MatchEvent) := hx
          simp at hx'
        | c :: t =>
          have hx' : x ∈ t ++ [e] := hx
          rcases List.mem_append.mp hx' with h | h
          · exact hcur_tail x h
          · simp only [List.mem_singleton] at h
            subst h
            intro hnp
            exact hcond ⟨hnp, by simp⟩
      · exact hacc_head
      · intro hne
        have hcur := hlink hne
        match hcur0 : current with
        | [] => simp [headNextPlayer] at hcur
        | c :: t => exact hcur

/-- Claim C3: the turns projection partitions the event sequence losslessly —
concatenating the runs in order reproduces the sequence exactly (so a
trailing partial run is included); every run is nonempty; a `next_player`
event only ever sits at the front of its run (it closes the run before it);
and every run after the first opens with a `next_player` event. -/
theorem return_events_as_turns_spec (events : List MatchEvent) :
    (return_events_as_turns events).flatten = events
    ∧ (∀ seg ∈ return_events_as_turns events, ¬ seg = [])
    ∧ (∀ seg ∈ return_events_as_turns events,
         ∀ e ∈ seg.tail, ¬ e.eventType = EventType.next_player)
    ∧ (∀ seg ∈ (return_events_as_turns events).drop 1, headNextPlayer seg) := by
  have hflat := turnsGo_flatten events [] []
  have hshape := turnsGo_shape events [] []
    (by intro seg h; simp at h) (by intro seg h; simp at h)
    (by intro e h; simp at h) (by intro seg h; simp at h)
    (by intro h; simp at h)
  exact ⟨by simpa [return_events_as_turns] using hflat,
         hshape.1, hshape.2.1, hshape.2.2⟩

/-- A sample `next_player` event used by concrete witnesses. -/
def sampleNextPlayer : MatchEvent :=
  { id := 3, eventType := EventType.next_player, timestamp := 3, details := "",
    turn_number := none, player_id := none, ball_ids := [] }

/-- A second sample `next_player` event used by concrete witnesses. -/
def sampleNextPlayer2 : MatchEvent :=
  { id := 4, eventType := EventType.next_player, timestamp := 4, details := "",
    turn_number := none, player_id := none, ball_ids := [] }

/-- Witness for C3 at a concrete sequence with an inner `next_player`, a
trailing `next_player` and a partial final run. -/
theorem return_events_as_turns_spec_witness :
    (return_events_as_turns
        [sampleBallsPotted, sampleNextPlayer, sampleFaul, sampleNextPlayer2]).flatten =
      [sampleBallsPotted, sampleNextPlayer, sampleFaul, sampleNextPlayer2]
    ∧ headNextPlayer [sampleNextPlayer, sampleFaul] :=
  ⟨(return_events_as_turns_spec
      [sampleBallsPotted, sampleNextPlayer, sampleFaul, sampleNextPlayer2]).1,
   (return_events_as_turns_spec
      [sampleBallsPotted, sampleNextPlayer, sampleFaul, sampleNextPlayer2]).2.2.2
      [sampleNextPlayer, sampleFaul] (by decide)⟩
/-! ### The best-of-N frame-creation gate -/

/-- Claim C1: for a match that exists, `create_frame` denies (returns no
frame, leaving the store untouched) exactly when either player's win count
has reached `frames_needed_to_win = (frames_to_win + 1) / 2` (win case) or
`frames_to_win` is even and the decided-frame total has reached it (draw
case); in every other case a frame is created and appended. The code returns
the same bare `None` for both deny cases, the win check merely running
first. -/
theorem create_frame_gate_spec (db : DB) (mid : Nat) (m : MatchRec) (fn : Option Nat)
    (hm : getMatch db mid = some m) :
    ((create_frame db mid fn).1 = none ↔
       ((m.frames_to_win + 1) / 2 ≤
           max (player_wins db mid m.player1) (player_wins db mid m.player2)
        ∨ (m.frames_to_win % 2 = 0
           ∧ m.frames_to_win ≤ player_wins db mid m.player1 + player_wins db mid m.player2)))
    ∧ ((create_frame db mid fn).1 = none → (create_frame db mid fn).2 = db)
    ∧ ((create_frame db mid fn).1 ≠ none →
        ∃ fr, (create_frame db mid fn).1 = some fr
          ∧ (create_frame db mid fn).2.frames = db.frames ++ [fr]) := by
  refine ⟨?_, ?_, ?_⟩
  · simp only [create_frame, hm]
    split_ifs with h1 h2
    · simpa using Or.inl (le_max_iff.mpr h1)
    · simpa using Or.inr h2
    · exact iff_of_false (by simp)
        (by rintro (hmax | hdraw)
            · exact h1 (le_max_iff.mp hmax)
            · exact h2 hdraw)
  · simp only [create_frame, hm]
    split_ifs with h1 h2
    · intro _; rfl
    · intro _; rfl
    · intro h; simp at h
  · simp only [create_frame, hm]
    split_ifs with h1 h2
    · intro h; simp at h
    · intro h; simp at h
    · intro _
      exact ⟨_, rfl, rfl⟩

/-- A match row used by concrete witnesses: best of 3 between profiles 10
and 20. -/
def sampleMatch : MatchRec :=
  { id := 1, player1 := 10, player2 := 20, match_date := none, frames_to_win := 3 }

/-- A frame of `sampleMatch` already won by player 10. -/
def sampleWonFrame1 : Frame :=
  { id := 1, match_id := 1, frame_number := 1, winner := some 10,
    player1_ball_group := none, player2_ball_group := none, events := [] }

/-- A second frame of `sampleMatch` already won by player 10. -/
def sampleWonFrame2 : Frame :=
  { id := 2, match_id := 1, frame_number := 2, winner := some 10,
    player1_ball_group := none, player2_ball_group := none, events := [] }

/-- A store in which player 10 has already taken two frames of a
best-of-three match. -/
def sampleDecidedDB : DB :=
  { profiles := [], match_list := [sampleMatch],
    frames := [sampleWonFrame1, sampleWonFrame2], events := [],
    token_users := [], next_event_id := 100, next_frame_id := 3, now := 9 }

/-- Witness for C1: with two of three frames won, `create_frame` denies and
leaves the store unchanged.  -/
theorem create_frame_gate_spec_witness :
    (create_frame sampleDecidedDB 1 none).1 = none
    ∧ (create_frame sampleDecidedDB 1 none).2 = sampleDecidedDB :=
  ⟨((create_frame_gate_spec sampleDecidedDB 1 sampleMatch none (by decide)).1).mpr
      (Or.inl (by decide)),
   (create_frame_gate_spec sampleDecidedDB 1 sampleMatch none (by decide)).2.1
      (((create_frame_gate_spec sampleDecidedDB 1 sampleMatch none (by decide)).1).mpr
        (Or.inl (by decide)))⟩
/-! ### Lemmas about event removal -/

theorem deleteEvent_detachEvent (db : DB) (fid eid : Nat) :
    deleteEvent (detachEvent db fid eid) eid = deleteEvent db eid := by
  unfold deleteEvent detachEvent
  simp only [List.map_map, DB.mk.injEq, true_and, and_true]
  apply List.map_congr_left
  intro f _
  by_cases h : f.id = fid <;>
    simp [h, Function.comp, List.filter_filter]

theorem deleteEvent_detach_foldl (l : List Frame) (db : DB) (eid : Nat) :
    deleteEvent (l.foldl (fun acc f => detachEvent acc f.id eid) db) eid =
      deleteEvent db eid := by
  induction l generalizing db with
  | nil => rfl
  | cons f t ih => rw [List.foldl_cons, ih, deleteEvent_detachEvent]

theorem getEvent_deleteEvent (db : DB) (eid : Nat) :
    getEvent (deleteEvent db eid) eid = none := by
  apply List.find?_eq_none.mpr
  intro e he
  simp only [deleteEvent, List.mem_filter] at he
  simpa using he.2

theorem deleteEvent_not_mem_frames (db : DB) (eid : Nat) :
    ∀ f ∈ (deleteEvent db eid).frames, ¬ eid ∈ f.events := by
  intro f hf
  simp only [deleteEvent, List.mem_map] at hf
  obtain ⟨x, _, rfl⟩ := hf
  simp [List.mem_filter]
/-- Claim C5: when the addressed event id is not attached to any frame of the
addressed match (in particular when it resolves to no event at all),
`remove_match_event` fails and the store is left unmodified; on success it
reports the event id together with the ids of the match's frames that held
the event, detaches it everywhere and deletes it. -/
theorem remove_match_event_spec (db : DB) (mid eid : Nat) :
    ((∀ f ∈ db.frames, ¬ (f.match_id = mid ∧ eid ∈ f.events)) →
       (remove_match_event db mid (some eid)).2 = db
       ∧ (remove_match_event db mid (some eid)).1.isOk = false)
    ∧ (∀ ev, getEvent db eid = some ev →
        (∃ f ∈ db.frames, f.match_id = mid ∧ eid ∈ f.events) →
        remove_match_event db mid (some eid) =
          (.ok { event_id := eid,
                 frame_ids := (db.frames.filter
                    (fun f => f.match_id = mid ∧ eid ∈ f.events)).map Frame.id },
           deleteEvent db eid)
        ∧ getEvent (deleteEvent db eid) eid = none
        ∧ ∀ f ∈ (deleteEvent db eid).frames, ¬ eid ∈ f.events) := by
  constructor
  · intro h
    unfold remove_match_event
    cases hev : getEvent db eid with
    | none => simp [hev, OpResult.isOk]
    | some ev =>
      have hid : ev.id = eid := by
        have := List.find?_some hev
        simpa using this
      have hnil : db.frames.filter (fun f => f.match_id = mid ∧ ev.id ∈ f.events) = [] := by
        rw [List.filter_eq_nil_iff]
        intro f hf
        rw [hid]
        simpa using h f hf
      simp only [Option.some_bind, hev, hnil]
      simp [OpResult.isOk]
  · intro ev hev hex
    have hid : ev.id = eid := by
      have := List.find?_some hev
      simpa using this
    have hne : ¬ db.frames.filter (fun f => f.match_id = mid ∧ ev.id ∈ f.events) = [] := by
      rw [List.filter_eq_nil_iff]
      push_neg
      obtain ⟨f, hf, hp⟩ := hex
      exact ⟨f, hf, by rw [hid]; simpa using hp⟩
    refine ⟨?_, getEvent_deleteEvent db eid, deleteEvent_not_mem_frames db eid⟩
    unfold remove_match_event
    simp only [Option.some_bind, hev]
    rw [if_neg hne, deleteEvent_detach_foldl, hid]
/-- A frame (id 7) of `sampleMatch` holding the single event 100. -/
def sampleEventFrame : Frame :=
  { id := 7, match_id := 1, frame_number := 1, winner := none,
    player1_ball_group := none, player2_ball_group := none, events := [100] }

/-- An event row with id 100 attached to `sampleEventFrame`. -/
def sampleStoredEvent : MatchEvent :=
  { id := 100, eventType := EventType.balls_potted, timestamp := 5, details := "",
    turn_number := none, player_id := none, ball_ids := ["1", "9"] }

/-- A store with one match, one frame and one attached event. -/
def sampleEventDB : DB :=
  { profiles := [], match_list := [sampleMatch], frames := [sampleEventFrame],
    events := [sampleStoredEvent], token_users := [], next_event_id := 101,
    next_frame_id := 8, now := 6 }

/-- Witness for C5: removing event 100 addressed to match 1 succeeds and
reports frame 7; addressed to match 2 (where it is not attached) the call
fails and the store is untouched. -/
theorem remove_match_event_spec_witness :
    (remove_match_event sampleEventDB 1 (some 100)).1 =
      OpResult.ok { event_id := 100, frame_ids := [7] }
    ∧ (remove_match_event sampleEventDB 2 (some 100)).2 = sampleEventDB := by
  constructor
  · have h := ((remove_match_event_spec sampleEventDB 1 100).2 sampleStoredEvent
      (by decide) (by decide)).1
    rw [h]
    rfl
  · exact ((remove_match_event_spec sampleEventDB 2 100).1 (by decide)).1

/-! ### Lemmas about `undo_last_event` -/

theorem lastEventByTimestamp_cons (e : MatchEvent) (rest : List MatchEvent) :
    lastEventByTimestamp (e :: rest) =
      match lastEventByTimestamp rest with
      | none => some e
      | some b => if b.timestamp > e.timestamp then some b else some e := rfl

theorem lastEventByTimestamp_eq_none (l : List MatchEvent)
    (h : lastEventByTimestamp l = none) : l = [] := by
  cases l with
  | nil => rfl
  | cons e rest =>
    rw [lastEventByTimestamp_cons] at h
    exfalso
    cases hr : lastEventByTimestamp rest with
    | none =>
      rw [hr] at h
      have h' : some e = none := h
      simp at h'
    | some b =>
      rw [hr] at h
      have h' : (if b.timestamp > e.timestamp then some b else some e) = none := h
      split at h' <;> simp at h'

theorem lastEventByTimestamp_spec (l : List MatchEvent) :
    ∀ b, lastEventByTimestamp l = some b →
      b ∈ l ∧ ∀ e ∈ l, e.timestamp ≤ b.timestamp := by
  induction l with
  | nil => intro b h; simp [lastEventByTimestamp] at h
  | cons e rest ih =>
    intro b h
    rw [lastEventByTimestamp_cons] at h
    cases hr : lastEventByTimestamp rest with
    | none =>
      rw [hr] at h
      have h' : some e = some b := h
      simp only [Option.some.injEq] at h'
      subst h'
      have hrest : rest = [] := lastEventByTimestamp_eq_none rest hr
      subst hrest
      exact ⟨List.mem_cons_self _ _, by
        intro x hx
        rcases List.mem_cons.mp hx with rfl | hx2
        · exact Nat.le_refl _
        · simp at hx2⟩
    | some b' =>
      rw [hr] at h
      have h' : (if b'.timestamp > e.timestamp then some b' else some e) = some b := h
      obtain ⟨hmem, hmax⟩ := ih b' hr
      by_cases hgt : b'.timestamp > e.timestamp
      · rw [if_pos hgt] at h'
        simp only [Option.some.injEq] at h'
        subst h'
        refine ⟨List.mem_cons_of_mem _ hmem, ?_⟩
        intro x hx
        rcases List.mem_cons.mp hx with rfl | hx2
        · exact Nat.le_of_lt hgt
        · exact hmax x hx2
      · rw [if_neg hgt] at h'
        simp only [Option.some.injEq] at h'
        subst h'
        refine ⟨List.mem_cons_self _ _, ?_⟩
        intro x hx
        rcases List.mem_cons.mp hx with rfl | hx2
        · exact Nat.le_refl _
        · exact Nat.le_trans (hmax x hx2) (Nat.le_of_not_lt hgt)

theorem getFrameInMatch_deleteEvent (db : DB) (fid mid x : Nat) :
    getFrameInMatch (deleteEvent db x) fid mid =
      (getFrameInMatch db fid mid).map
        (fun f => { f with events := f.events.filter (fun i => ¬ i = x) }) := by
  unfold getFrameInMatch deleteEvent
  simp only [List.find?_map]
  rfl
theorem undo_last_event_eq (db : DB) (mid fid : Nat) (f : Frame)
    (hf : getFrameInMatch db fid mid = some f) :
    undo_last_event db mid (some fid) =
      match lastEventByTimestamp (db.events.filter (fun e => e.id ∈ f.events)) with
      | none => (.err "No events to undo in this frame", db)
      | some last =>
        (.ok { event_id := last.id, frame_id := fid, event_type := last.eventType },
         deleteEvent (detachEvent db f.id last.id) last.id) := by
  unfold undo_last_event
  change (match getFrameInMatch db fid mid with
    | none => ((OpResult.err "Frame not found" : OpResult UndoData), db)
    | some f =>
      match lastEventByTimestamp (db.events.filter (fun e => e.id ∈ f.events)) with
      | none => (.err "No events to undo in this frame", db)
      | some last =>
        (.ok { event_id := last.id, frame_id := fid, event_type := last.eventType },
         deleteEvent (detachEvent db f.id last.id) last.id)) = _
  rw [hf]

/-- Claim C6: on a frame of the addressed match, `undo_last_event` removes
exactly the attached event with the greatest timestamp, reporting its id and
event type; with zero attached events it fails without mutating the store;
hence on a frame with exactly one event, calling it twice removes the event
the first time and fails the second time. -/
theorem undo_last_event_spec (db : DB) (mid fid : Nat) (f : Frame)
    (hf : getFrameInMatch db fid mid = some f) :
    (db.events.filter (fun e => e.id ∈ f.events) = [] →
       undo_last_event db mid (some fid) =
         (.err "No events to undo in this frame", db))
    ∧ (∀ last,
        lastEventByTimestamp (db.events.filter (fun e => e.id ∈ f.events)) = some last →
        undo_last_event db mid (some fid) =
          (.ok { event_id := last.id, frame_id := fid, event_type := last.eventType },
           deleteEvent db last.id)
        ∧ last ∈ db.events.filter (fun e => e.id ∈ f.events)
        ∧ ∀ e ∈ db.events.filter (fun e => e.id ∈ f.events),
            e.timestamp ≤ last.timestamp)
    ∧ (∀ ev1, db.events.filter (fun e => e.id ∈ f.events) = [ev1] →
        (undo_last_event db mid (some fid)).1 =
          .ok { event_id := ev1.id, frame_id := fid, event_type := ev1.eventType }
        ∧ (undo_last_event (undo_last_event db mid (some fid)).2 mid (some fid)).1 =
          .err "No events to undo in this frame") := by
  have hred := undo_last_event_eq db mid fid f hf
  have hstep : ∀ last,
      lastEventByTimestamp (db.events.filter (fun e => e.id ∈ f.events)) = some last →
      undo_last_event db mid (some fid) =
        (.ok { event_id := last.id, frame_id := fid, event_type := last.eventType },
         deleteEvent db last.id) := by
    intro last hlast
    rw [hred, hlast]
    show ((.ok { event_id := last.id, frame_id := fid, event_type := last.eventType },
           deleteEvent (detachEvent db f.id last.id) last.id) : OpResult UndoData × DB) =
         (.ok { event_id := last.id, frame_id := fid, event_type := last.eventType },
          deleteEvent db last.id)
    rw [deleteEvent_detachEvent]
  refine ⟨?_, ?_, ?_⟩
  · intro hnil
    rw [hred, hnil]
    rfl
  · intro last hlast
    exact ⟨hstep last hlast,
      (lastEventByTimestamp_spec _ last hlast).1,
      (lastEventByTimestamp_spec _ last hlast).2⟩
  · intro ev1 hsingle
    have hlast : lastEventByTimestamp (db.events.filter (fun e => e.id ∈ f.events)) =
        some ev1 := by
      rw [hsingle]
      rfl
    have h1 := hstep ev1 hlast
    refine ⟨by rw [h1], ?_⟩
    rw [h1]
    have hf2 : getFrameInMatch (deleteEvent db ev1.id) fid mid =
        some { f with events := f.events.filter (fun i => ¬ i = ev1.id) } := by
      rw [getFrameInMatch_deleteEvent, hf]
      rfl
    have hred2 := undo_last_event_eq (deleteEvent db ev1.id) mid fid
      { f with events := f.events.filter (fun i => ¬ i = ev1.id) } hf2
    have hempty : (deleteEvent db ev1.id).events.filter
        (fun e => e.id ∈
          ({ f with events := f.events.filter (fun i => ¬ i = ev1.id) } : Frame).events) =
        [] := by
      rw [List.filter_eq_nil_iff]
      intro x hx
      have hx' : x ∈ db.events.filter (fun y => ¬ y.id = ev1.id) := hx
      simp only [List.mem_filter, decide_not, Bool.not_eq_true', decide_eq_false_iff_not]
        at hx'
      intro hmem
      simp only [List.mem_filter, decide_eq_true_eq] at hmem
      have hxf : x ∈ db.events.filter (fun e => e.id ∈ f.events) :=
        List.mem_filter.mpr ⟨hx'.1, by simpa using hmem.1⟩
      rw [hsingle] at hxf
      simp only [List.mem_singleton] at hxf
      exact hx'.2 (by rw [hxf])
    rw [hred2, hempty]
    rfl
/-- Witness for C6: frame 7 of match 1 holds exactly event 100; the first
undo removes it and reports id and type, the second undo fails. -/
theorem undo_last_event_spec_witness :
    (undo_last_event sampleEventDB 1 (some 7)).1 =
      OpResult.ok { event_id := 100, frame_id := 7,
                    event_type := EventType.balls_potted }
    ∧ (undo_last_event (undo_last_event sampleEventDB 1 (some 7)).2 1 (some 7)).1 =
      OpResult.err "No events to undo in this frame" := by
  have h := (undo_last_event_spec sampleEventDB 1 7 sampleEventFrame (by decide)).2.2
    sampleStoredEvent (by decide)
  exact ⟨by rw [h.1]; rfl, h.2⟩

/-! ### Ball-group assignment -/

theorem set_frame_ball_groups_eq (db : DB) (mid fid : Nat) (g1 g2 : Option String)
    (f : Frame) (hf : getFrameInMatch db fid mid = some f) :
    set_frame_ball_groups db mid (some fid) g1 g2 =
      (some (if validBallGroup g2 then
               { (if validBallGroup g1 then { f with player1_ball_group := g1 } else f) with
                 player2_ball_group := g2 }
             else (if validBallGroup g1 then { f with player1_ball_group := g1 } else f)),
       setFrame db (if validBallGroup g2 then
               { (if validBallGroup g1 then { f with player1_ball_group := g1 } else f) with
                 player2_ball_group := g2 }
             else (if validBallGroup g1 then { f with player1_ball_group := g1 } else f))) := by
  unfold set_frame_ball_groups
  change (match getFrameInMatch db fid mid with
    | none => ((none : Option Frame), db)
    | some f =>
      let f1 := if validBallGroup g1 then { f with player1_ball_group := g1 } else f
      let f2 := if validBallGroup g2 then { f1 with player2_ball_group := g2 } else f1
      (some f2, setFrame db f2)) = _
  rw [hf]

/-- Claim C8: on an existing frame of the addressed match, `setBallGroups`
writes each of the two group fields only when the supplied value is present
and in `{full, striped}`; an absent or invalid value leaves the field at its
previous value without an error, and no other frame field changes. -/
theorem set_frame_ball_groups_spec (db : DB) (mid fid : Nat)
    (g1 g2 : Option String) (f : Frame)
    (hf : getFrameInMatch db fid mid = some f) :
    ∃ f', set_frame_ball_groups db mid (some fid) g1 g2 = (some f', setFrame db f')
      ∧ f'.player1_ball_group =
          (if validBallGroup g1 then g1 else f.player1_ball_group)
      ∧ f'.player2_ball_group =
          (if validBallGroup g2 then g2 else f.player2_ball_group)
      ∧ f'.id = f.id ∧ f'.match_id = f.match_id ∧ f'.frame_number = f.frame_number
      ∧ f'.winner = f.winner ∧ f'.events = f.events := by
  refine ⟨_, set_frame_ball_groups_eq db mid fid g1 g2 f hf, ?_, ?_, ?_, ?_, ?_, ?_, ?_⟩
  all_goals
    by_cases h1 : validBallGroup g1 <;> by_cases h2 : validBallGroup g2 <;>
      simp [h1, h2]

/-- Witness for C8: a valid `full` for player 1 is written, an invalid
`bogus` for player 2 is silently ignored. -/
theorem set_frame_ball_groups_spec_witness :
    ∃ f', set_frame_ball_groups sampleEventDB 1 (some 7) (some "full") (some "bogus") =
        (some f', setFrame sampleEventDB f')
      ∧ f'.player1_ball_group = some "full"
      ∧ f'.player2_ball_group = none := by
  obtain ⟨f', heq, hp1, hp2, _⟩ := set_frame_ball_groups_spec sampleEventDB 1 7
    (some "full") (some "bogus") sampleEventFrame (by decide)
  exact ⟨f', heq, by rw [hp1]; rfl, by rw [hp2]; rfl⟩
/-! ### Reduction lemmas for the `receive` dispatcher -/

theorem receive_eq_dispatch (db : DB) (mid : Nat) (msg : InboundMsg) (a : String)
    (hact : msg.action = some a) :
    receive db mid msg = dispatch db mid msg a := by
  unfold receive
  rw [hact]

theorem receive_no_action (db : DB) (mid : Nat) (msg : InboundMsg)
    (hact : msg.action = none) :
    receive db mid msg = (db, []) := by
  unfold receive
  rw [hact]

theorem dispatch_create_event (db : DB) (mid : Nat) (msg : InboundMsg) :
    dispatch db mid msg "create_event" =
      match create_match_event db msg.event_data with
      | (some _, db') =>
        (db', [.broadcast ("match_" ++ toString mid) "event_created",
               .send "event_created" (some true) none])
      | (none, db') => (db', []) := rfl

theorem dispatch_start_frame (db : DB) (mid : Nat) (msg : InboundMsg) :
    dispatch db mid msg "start_frame" =
      match create_frame db mid msg.frame_data with
      | (some _, db') => (db', [.broadcast ("match_" ++ toString mid) "frame_update"])
      | (none, db') => (db', []) := rfl

theorem dispatch_end_frame (db : DB) (mid : Nat) (msg : InboundMsg) :
    dispatch db mid msg "end_frame" =
      match end_frame db msg.frame_id msg.winner_id with
      | (some _, db') => (db', [.broadcast ("match_" ++ toString mid) "frame_update"])
      | (none, db') => (db', []) := rfl

theorem dispatch_update_match (db : DB) (mid : Nat) (msg : InboundMsg) :
    dispatch db mid msg "update_match" =
      match update_match db mid msg.updates with
      | (some _, db') => (db', [.broadcast ("match_" ++ toString mid) "match_update"])
      | (none, db') => (db', []) := rfl

theorem dispatch_remove_event (db : DB) (mid : Nat) (msg : InboundMsg) :
    dispatch db mid msg "remove_event" =
      match remove_match_event db mid msg.event_id with
      | (.ok _, db') =>
        (db', [.broadcast ("match_" ++ toString mid) "event_removed",
               .send "event_removed" (some true) none])
      | (.err m, db') => (db', [.send "error" none (some m)]) := rfl

theorem dispatch_undo_last_event (db : DB) (mid : Nat) (msg : InboundMsg) :
    dispatch db mid msg "undo_last_event" =
      match undo_last_event db mid msg.frame_id with
      | (.ok _, db') =>
        (db', [.broadcast ("match_" ++ toString mid) "event_removed",
               .send "event_removed" (some true) (some "Last event undone")])
      | (.err m, db') => (db', [.send "error" none (some m)]) := rfl

theorem dispatch_remove_events_from_frame (db : DB) (mid : Nat) (msg : InboundMsg) :
    dispatch db mid msg "remove_events_from_frame" =
      match remove_events_from_frame db mid msg.frame_id msg.event_ids with
      | (.ok _, db') =>
        (db', [.broadcast ("match_" ++ toString mid) "events_removed",
               .send "events_removed" (some true) none])
      | (.err m, db') => (db', [.send "error" none (some m)]) := rfl

theorem dispatch_clear_frame_events (db : DB) (mid : Nat) (msg : InboundMsg) :
    dispatch db mid msg "clear_frame_events" =
      match clear_frame_events db mid msg.frame_id with
      | (.ok _, db') =>
        (db', [.broadcast ("match_" ++ toString mid) "frame_events_cleared",
               .send "frame_events_cleared" (some true) none])
      | (.err m, db') => (db', [.send "error" none (some m)]) := rfl

theorem dispatch_set_ball_groups (db : DB) (mid : Nat) (msg : InboundMsg) :
    dispatch db mid msg "set_ball_groups" =
      match set_frame_ball_groups db mid msg.frame_id msg.player1_ball_group
              msg.player2_ball_group with
      | (some _, db') =>
        (db', [.broadcast ("match_" ++ toString mid) "frame_update",
               .send "ball_groups_set" (some true) none])
      | (none, db') => (db', [.send "error" none (some "Failed to set ball groups")]) := rfl

theorem dispatch_unknown (db : DB) (mid : Nat) (msg : InboundMsg) (a : String)
    (h : ¬ a ∈ ["create_event", "start_frame", "end_frame", "update_match",
                "remove_event", "undo_last_event", "remove_events_from_frame",
                "clear_frame_events", "set_ball_groups"]) :
    dispatch db mid msg a = (db, []) := by
  have hs : ¬ a = "create_event" ∧ ¬ a = "start_frame" ∧ ¬ a = "end_frame"
      ∧ ¬ a = "update_match" ∧ ¬ a = "remove_event" ∧ ¬ a = "undo_last_event"
      ∧ ¬ a = "remove_events_from_frame" ∧ ¬ a = "clear_frame_events"
      ∧ ¬ a = "set_ball_groups" := by
    simpa using h
  unfold dispatch
  rw [if_neg hs.1, if_neg hs.2.1, if_neg hs.2.2.1, if_neg hs.2.2.2.1,
    if_neg hs.2.2.2.2.1, if_neg hs.2.2.2.2.2.1, if_neg hs.2.2.2.2.2.2.1,
    if_neg hs.2.2.2.2.2.2.2.1, if_neg hs.2.2.2.2.2.2.2.2]
/-! ### Orphaned events on failed `create_event` -/

/-- Claim C9: a `create_event` command whose `frame_id` does not resolve to a
frame reports failure — no acknowledgement and no broadcast are emitted — yet
the freshly inserted `MatchEvent` row stays persisted and attached to no
frame: insertion and attachment are not atomic, so the failure is not a
no-op. -/
theorem create_event_orphan_spec (db : DB) (mid : Nat) (msg : InboundMsg) (fid : Nat)
    (hact : msg.action = some "create_event")
    (hfid : msg.event_data.frame_id = some fid)
    (h0 : ¬ fid = 0)
    (hnf : getFrame db fid = none)
    (hfresh : ∀ f ∈ db.frames, ¬ db.next_event_id ∈ f.events) :
    create_match_event db msg.event_data =
      (none, { db with events := db.events ++ [mkEvent db msg.event_data],
                       next_event_id := db.next_event_id + 1 })
    ∧ (receive db mid msg).2 = []
    ∧ (receive db mid msg).1.frames = db.frames
    ∧ mkEvent db msg.event_data ∈ (receive db mid msg).1.events
    ∧ ∀ f ∈ (receive db mid msg).1.frames,
        ¬ (mkEvent db msg.event_data).id ∈ f.events := by
  have hcme : create_match_event db msg.event_data =
      (none, { db with events := db.events ++ [mkEvent db msg.event_data],
                       next_event_id := db.next_event_id + 1 }) := by
    unfold create_match_event
    rw [hfid]
    change (if ¬ fid = 0 then
        match getFrame { db with events := db.events ++ [mkEvent db msg.event_data],
                                 next_event_id := db.next_event_id + 1 } fid with
        | some _ =>
          (some (mkEvent db msg.event_data),
           attachEvent { db with events := db.events ++ [mkEvent db msg.event_data],
                                 next_event_id := db.next_event_id + 1 } fid
             (mkEvent db msg.event_data).id)
        | none =>
          (none, { db with events := db.events ++ [mkEvent db msg.event_data],
                           next_event_id := db.next_event_id + 1 })
      else
        (some (mkEvent db msg.event_data),
         { db with events := db.events ++ [mkEvent db msg.event_data],
                   next_event_id := db.next_event_id + 1 })) = _
    rw [if_pos h0]
    have hnf' : getFrame { db with events := db.events ++ [mkEvent db msg.event_data],
                                   next_event_id := db.next_event_id + 1 } fid = none := hnf
    rw [hnf']
  have hrecv : receive db mid msg =
      ({ db with events := db.events ++ [mkEvent db msg.event_data],
                 next_event_id := db.next_event_id + 1 }, []) := by
    rw [receive_eq_dispatch db mid msg _ hact, dispatch_create_event, hcme]
  refine ⟨hcme, ?_, ?_, ?_, ?_⟩
  · rw [hrecv]
  · rw [hrecv]
  · rw [hrecv]
    simp
  · rw [hrecv]
    intro f hf
    exact hfresh f hf

/-- The fields every witness message starts from (all payload keys absent). -/
def baseMsg : InboundMsg :=
  { action := none,
    event_data := { eventType := EventType.faul, details := "", turn_number := none,
                    player_id := none, ball_ids := [], frame_id := none },
    frame_data := none, frame_id := none, winner_id := none, event_id := none,
    event_ids := [], updates := { match_date := none, frames_to_win := none },
    player1_ball_group := none, player2_ball_group := none }

/-- A `create_event` command addressed to the nonexistent frame 55. -/
def orphanMsg : InboundMsg :=
  { baseMsg with action := some "create_event",
                 event_data := { eventType := EventType.faul, details := "",
                                 turn_number := none, player_id := none,
                                 ball_ids := [], frame_id := some 55 } }

/-- Witness for C9: against `sampleEventDB` (which has no frame 55) the
command emits nothing, yet the new event row is persisted. -/
theorem create_event_orphan_spec_witness :
    (receive sampleEventDB 1 orphanMsg).2 = []
    ∧ mkEvent sampleEventDB orphanMsg.event_data ∈
        (receive sampleEventDB 1 orphanMsg).1.events
    ∧ (receive sampleEventDB 1 orphanMsg).1.frames = sampleEventDB.frames := by
  have h := create_event_orphan_spec sampleEventDB 1 orphanMsg 55 rfl rfl
    (by decide) (by decide) (by decide)
  exact ⟨h.2.1, h.2.2.2.1, h.2.2.1⟩
/-! ### Acknowledgement behaviour of the dispatcher -/

/-- A `start_frame` command (no explicit frame number). -/
def startFrameMsg : InboundMsg := { baseMsg with action := some "start_frame" }

/-- A command whose action matches no branch of the dispatcher. -/
def unknownMsg : InboundMsg := { baseMsg with action := some "bogus_action" }

/-- Counterexample to C2: against `sampleDecidedDB` the best-of-N gate denies
`start_frame`, and the session receives no acknowledgement at all (no message
whatsoever is emitted) instead of a structured reason; an unrecognized action
is likewise met with silence rather than a failure acknowledgement. -/
theorem receive_ack_counterexample :
    (receive sampleDecidedDB 1 startFrameMsg).2 = []
    ∧ (receive sampleDecidedDB 1 unknownMsg).2 = []
    ∧ (create_frame sampleDecidedDB 1 none).1 = none := by
  refine ⟨?_, ?_, by decide⟩
  · rw [receive_eq_dispatch sampleDecidedDB 1 startFrameMsg _ rfl, dispatch_start_frame]
    have h : create_frame sampleDecidedDB 1 startFrameMsg.frame_data =
        (none, sampleDecidedDB) := by decide
    rw [h]
  · rw [receive_eq_dispatch sampleDecidedDB 1 unknownMsg _ rfl,
      dispatch_unknown sampleDecidedDB 1 unknownMsg "bogus_action" (by decide)]

/-- Claim C2 (amended): only the five commands `remove_event`,
`undo_last_event`, `remove_events_from_frame`, `clear_frame_events` and
`set_ball_groups` receive exactly one direct acknowledgement whether they
succeed or fail; `create_event` is acknowledged only on success;
`start_frame`, `end_frame` and `update_match` are never directly
acknowledged (their denials and failures are silent); a message with an
unrecognized or absent action is ignored without any reply. -/
theorem receive_ack_spec (db : DB) (mid : Nat) (msg : InboundMsg) :
    (msg.action = none → (receive db mid msg).2 = [])
    ∧ (∀ a, msg.action = some a →
        ¬ a ∈ ["create_event", "start_frame", "end_frame", "update_match",
               "remove_event", "undo_last_event", "remove_events_from_frame",
               "clear_frame_events", "set_ball_groups"] →
        (receive db mid msg).2 = [])
    ∧ (msg.action = some "start_frame" ∨ msg.action = some "end_frame"
        ∨ msg.action = some "update_match" →
        acks (receive db mid msg).2 = [])
    ∧ (msg.action = some "create_event" →
        acks (receive db mid msg).2 =
          (if (create_match_event db msg.event_data).1.isSome then
             [OutMsg.send "event_created" (some true) none]
           else []))
    ∧ (msg.action = some "remove_event" ∨ msg.action = some "undo_last_event"
        ∨ msg.action = some "remove_events_from_frame"
        ∨ msg.action = some "clear_frame_events"
        ∨ msg.action = some "set_ball_groups" →
        (acks (receive db mid msg).2).length = 1) := by
  refine ⟨?_, ?_, ?_, ?_, ?_⟩
  · intro h
    rw [receive_no_action db mid msg h]
  · intro a ha hna
    rw [receive_eq_dispatch db mid msg a ha, dispatch_unknown db mid msg a hna]
  · rintro (h | h | h)
    · rw [receive_eq_dispatch db mid msg _ h, dispatch_start_frame]
      rcases hr : create_frame db mid msg.frame_data with ⟨r, db'⟩
      cases r <;> simp [acks, OutMsg.isSend]
    · rw [receive_eq_dispatch db mid msg _ h, dispatch_end_frame]
      rcases hr : end_frame db msg.frame_id msg.winner_id with ⟨r, db'⟩
      cases r <;> simp [acks, OutMsg.isSend]
    · rw [receive_eq_dispatch db mid msg _ h, dispatch_update_match]
      rcases hr : update_match db mid msg.updates with ⟨r, db'⟩
      cases r <;> simp [acks, OutMsg.isSend]
  · intro h
    rw [receive_eq_dispatch db mid msg _ h, dispatch_create_event]
    rcases hr : create_match_event db msg.event_data with ⟨r, db'⟩
    cases r <;> simp [acks, OutMsg.isSend]
  · rintro (h | h | h | h | h)
    · rw [receive_eq_dispatch db mid msg _ h, dispatch_remove_event]
      rcases hr : remove_match_event db mid msg.event_id with ⟨r, db'⟩
      cases r <;> simp [acks, OutMsg.isSend]
    · rw [receive_eq_dispatch db mid msg _ h, dispatch_undo_last_event]
      rcases hr : undo_last_event db mid msg.frame_id with ⟨r, db'⟩
      cases r <;> simp [acks, OutMsg.isSend]
    · rw [receive_eq_dispatch db mid msg _ h, dispatch_remove_events_from_frame]
      rcases hr : remove_events_from_frame db mid msg.frame_id msg.event_ids with ⟨r, db'⟩
      cases r <;> simp [acks, OutMsg.isSend]
    · rw [receive_eq_dispatch db mid msg _ h, dispatch_clear_frame_events]
      rcases hr : clear_frame_events db mid msg.frame_id with ⟨r, db'⟩
      cases r <;> simp [acks, OutMsg.isSend]
    · rw [receive_eq_dispatch db mid msg _ h, dispatch_set_ball_groups]
      rcases hr : set_frame_ball_groups db mid msg.frame_id msg.player1_ball_group
        msg.player2_ball_group with ⟨r, db'⟩
      cases r <;> simp [acks, OutMsg.isSend]

/-- Witness for the amended C2: a `remove_event` command gets exactly one
acknowledgement, a junk action gets nothing, and an `end_frame` command gets
no direct acknowledgement. -/
theorem receive_ack_spec_witness :
    (acks (receive sampleEventDB 1 { baseMsg with action := some "remove_event" }).2).length = 1
    ∧ (receive sampleEventDB 1 { baseMsg with action := some "junk" }).2 = []
    ∧ acks (receive sampleEventDB 1 { baseMsg with action := some "end_frame" }).2 = [] :=
  ⟨(receive_ack_spec sampleEventDB 1 _).2.2.2.2 (Or.inl rfl),
   (receive_ack_spec sampleEventDB 1 _).2.1 "junk" rfl (by decide),
   (receive_ack_spec sampleEventDB 1 _).2.2.1 (Or.inr (Or.inl rfl))⟩
/-! ### Scorekeeper connection gate -/

/-- A store whose token table resolves no credential. -/
def invalidTokenDB : DB :=
  { profiles := [], match_list := [sampleMatch], frames := [], events := [],
    token_users := [], next_event_id := 1, next_frame_id := 1, now := 0 }

/-- A store where token `tok` resolves to user 5 whose profile is not a
biro. -/
def nonBiroDB : DB :=
  { profiles := [{ id := 9, user := some 5, is_biro := false }],
    match_list := [sampleMatch], frames := [], events := [],
    token_users := [("tok", 5)], next_event_id := 1, next_frame_id := 1, now := 0 }

/-- Counterexample to C7: the three failure cases do not produce three
distinct reasons. A missing credential closes with code 4001, but a
credential resolving to no principal and a principal without the biro
permission both close with the same code 4003 — the only reason channel the
client sees — so only two distinct rejection signals exist. -/
theorem connect_reasons_counterexample :
    connect invalidTokenDB "" 1 = ConnectResult.rejected 4001
    ∧ connect invalidTokenDB "token=tok" 1 = ConnectResult.rejected 4003
    ∧ connect nonBiroDB "token=tok" 1 = ConnectResult.rejected 4003 := by
  refine ⟨rfl, rfl, rfl⟩

/-- Claim C7 (amended): a connection with no (or an empty) `token` query
parameter is closed with code 4001; a token resolving to no profile is
closed with code 4003; a profile without `is_biro` is closed with the same
code 4003 (the two cases are distinguished only in server logs, not in the
rejection the client observes); only a connection passing all three checks
joins the room `biro_match_<match_id>` and may issue commands. -/
theorem connect_auth_spec (db : DB) (qs : String) (mid : Nat) :
    ((parseToken qs = none ∨ parseToken qs = some "") →
       connect db qs mid = .rejected 4001)
    ∧ (∀ t, parseToken qs = some t → ¬ t = "" →
        get_profile_from_token db t = none →
        connect db qs mid = .rejected 4003)
    ∧ (∀ t p, parseToken qs = some t → ¬ t = "" →
        get_profile_from_token db t = some p → p.is_biro = false →
        connect db qs mid = .rejected 4003)
    ∧ (∀ t p, parseToken qs = some t → ¬ t = "" →
        get_profile_from_token db t = some p → p.is_biro = true →
        connect db qs mid = .accepted p.id ("biro_match_" ++ toString mid)) := by
  refine ⟨?_, ?_, ?_, ?_⟩
  · rintro (h | h)
    · unfold connect
      rw [h]
    · unfold connect
      rw [h]
      rfl
  · intro t hpt hne hnp
    unfold connect
    rw [hpt]
    change (if t = "" then ConnectResult.rejected 4001
      else match get_profile_from_token db t with
        | none => ConnectResult.rejected 4003
        | some profile =>
          if ¬ profile.is_biro then ConnectResult.rejected 4003
          else ConnectResult.accepted profile.id ("biro_match_" ++ toString mid)) = _
    rw [if_neg hne, hnp]
  · intro t p hpt hne hpf hb
    unfold connect
    rw [hpt]
    change (if t = "" then ConnectResult.rejected 4001
      else match get_profile_from_token db t with
        | none => ConnectResult.rejected 4003
        | some profile =>
          if ¬ profile.is_biro then ConnectResult.rejected 4003
          else ConnectResult.accepted profile.id ("biro_match_" ++ toString mid)) = _
    rw [if_neg hne, hpf]
    change (if ¬ p.is_biro then ConnectResult.rejected 4003
      else ConnectResult.accepted p.id ("biro_match_" ++ toString mid)) = _
    rw [if_pos (by simp [hb])]
  · intro t p hpt hne hpf hb
    unfold connect
    rw [hpt]
    change (if t = "" then ConnectResult.rejected 4001
      else match get_profile_from_token db t with
        | none => ConnectResult.rejected 4003
        | some profile =>
          if ¬ profile.is_biro then ConnectResult.rejected 4003
          else ConnectResult.accepted profile.id ("biro_match_" ++ toString mid)) = _
    rw [if_neg hne, hpf]
    change (if ¬ p.is_biro then ConnectResult.rejected 4003
      else ConnectResult.accepted p.id ("biro_match_" ++ toString mid)) = _
    rw [if_neg (by simp [hb])]

/-- A store where token `tok` resolves to user 5 whose profile 9 is a biro. -/
def biroDB : DB :=
  { profiles := [{ id := 9, user := some 5, is_biro := true }],
    match_list := [sampleMatch], frames := [], events := [],
    token_users := [("tok", 5)], next_event_id := 1, next_frame_id := 1, now := 0 }

/-- Witness for the amended C7 at concrete stores: all four outcomes. -/
theorem connect_auth_spec_witness :
    connect biroDB "a=b" 1 = ConnectResult.rejected 4001
    ∧ connect invalidTokenDB "token=tok" 1 = ConnectResult.rejected 4003
    ∧ connect nonBiroDB "token=tok" 1 = ConnectResult.rejected 4003
    ∧ connect biroDB "token=tok" 1 = ConnectResult.accepted 9 "biro_match_1" :=
  ⟨(connect_auth_spec biroDB "a=b" 1).1 (Or.inl (by decide)),
   (connect_auth_spec invalidTokenDB "token=tok" 1).2.1 "tok" (by decide)
     (by decide) (by decide),
   (connect_auth_spec nonBiroDB "token=tok" 1).2.2.1 "tok"
     { id := 9, user := some 5, is_biro := false } (by decide) (by decide)
     (by decide) rfl,
   (connect_auth_spec biroDB "token=tok" 1).2.2.2 "tok"
     { id := 9, user := some 5, is_biro := true } (by decide) (by decide)
     (by decide) rfl⟩
/-! ### Frame resolution scoping -/

theorem undo_last_event_notfound (db : DB) (mid fid : Nat)
    (h : getFrameInMatch db fid mid = none) :
    undo_last_event db mid (some fid) = (.err "Frame not found", db) := by
  unfold undo_last_event
  change (match getFrameInMatch db fid mid with
    | none => ((OpResult.err "Frame not found" : OpResult UndoData), db)
    | some f =>
      match lastEventByTimestamp (db.events.filter (fun e => e.id ∈ f.events)) with
      | none => (.err "No events to undo in this frame", db)
      | some last =>
        (.ok { event_id := last.id, frame_id := fid, event_type := last.eventType },
         deleteEvent (detachEvent db f.id last.id) last.id)) = _
  rw [h]

theorem remove_events_from_frame_notfound (db : DB) (mid fid : Nat) (ids : List Nat)
    (h : getFrameInMatch db fid mid = none) :
    remove_events_from_frame db mid (some fid) ids = (.err "Frame not found", db) := by
  unfold remove_events_from_frame
  change (match getFrameInMatch db fid mid with
    | none => ((OpResult.err "Frame not found" : OpResult RemovedEventsData), db)
    | some f =>
      let st := ids.foldl (removeOneFromFrame f.id) (db, [])
      (.ok { frame_id := fid, removed_event_ids := st.2, count := st.2.length },
       st.1)) = _
  rw [h]

theorem clear_frame_events_notfound (db : DB) (mid fid : Nat)
    (h : getFrameInMatch db fid mid = none) :
    clear_frame_events db mid (some fid) = (.err "Frame not found", db) := by
  unfold clear_frame_events
  change (match getFrameInMatch db fid mid with
    | none => ((OpResult.err "Frame not found" : OpResult ClearedEventsData), db)
    | some f =>
      let event_ids := f.events
      let db' := f.events.foldl (fun acc eid => deleteEvent (detachEvent acc f.id eid) eid) db
      (.ok { frame_id := fid, cleared_event_ids := event_ids,
             count := event_ids.length }, db')) = _
  rw [h]

theorem set_frame_ball_groups_notfound (db : DB) (mid fid : Nat)
    (g1 g2 : Option String) (h : getFrameInMatch db fid mid = none) :
    set_frame_ball_groups db mid (some fid) g1 g2 = (none, db) := by
  unfold set_frame_ball_groups
  change (match getFrameInMatch db fid mid with
    | none => ((none : Option Frame), db)
    | some f =>
      let f1 := if validBallGroup g1 then { f with player1_ball_group := g1 } else f
      let f2 := if validBallGroup g2 then { f1 with player2_ball_group := g2 } else f1
      (some f2, setFrame db f2)) = _
  rw [h]

/-- Claim C10: every frame-addressed mutation except `create_event` resolves
the frame jointly by frame id and the addressed match id and fails without
mutation when the frame belongs to a different match, while `create_event`
resolves the frame by id alone and attaches the new event to that
foreign-match frame. -/
theorem frame_match_scoping_spec (db : DB) (mid fid : Nat) (g1 g2 : Option String)
    (ids : List Nat) (ed : EventData)
    (hall : ∀ f ∈ db.frames, f.id = fid → ¬ f.match_id = mid)
    (hex : ∃ f ∈ db.frames, f.id = fid)
    (h0 : ¬ fid = 0)
    (hed : ed.frame_id = some fid)
    (hfresh : ∀ f ∈ db.frames, ¬ db.next_event_id ∈ f.events) :
    undo_last_event db mid (some fid) = (.err "Frame not found", db)
    ∧ remove_events_from_frame db mid (some fid) ids = (.err "Frame not found", db)
    ∧ clear_frame_events db mid (some fid) = (.err "Frame not found", db)
    ∧ set_frame_ball_groups db mid (some fid) g1 g2 = (none, db)
    ∧ (create_match_event db ed).1 = some (mkEvent db ed)
    ∧ ∃ f ∈ (create_match_event db ed).2.frames,
        f.id = fid ∧ ¬ f.match_id = mid ∧ (mkEvent db ed).id ∈ f.events := by
  have hnone : getFrameInMatch db fid mid = none := by
    apply List.find?_eq_none.mpr
    intro f hf
    simp only [decide_eq_true_eq, not_and]
    intro hid
    exact hall f hf hid
  obtain ⟨f1, hf1⟩ : ∃ f1, getFrame db fid = some f1 := by
    obtain ⟨f0, hf0mem, hf0id⟩ := hex
    have hsome : (db.frames.find? (fun f => f.id = fid)).isSome :=
      List.find?_isSome.mpr ⟨f0, hf0mem, by simp [hf0id]⟩
    exact Option.isSome_iff_exists.mp hsome
  have hf1id : f1.id = fid := by
    have := List.find?_some hf1
    simpa using this
  have hf1mem : f1 ∈ db.frames := List.mem_of_find?_eq_some hf1
  have hf1mid : ¬ f1.match_id = mid := hall f1 hf1mem hf1id
  have hcme : create_match_event db ed =
      (some (mkEvent db ed),
       attachEvent { db with events := db.events ++ [mkEvent db ed],
                             next_event_id := db.next_event_id + 1 } fid
         (mkEvent db ed).id) := by
    unfold create_match_event
    rw [hed]
    change (if ¬ fid = 0 then
        match getFrame { db with events := db.events ++ [mkEvent db ed],
                                 next_event_id := db.next_event_id + 1 } fid with
        | some _ =>
          (some (mkEvent db ed),
           attachEvent { db with events := db.events ++ [mkEvent db ed],
                                 next_event_id := db.next_event_id + 1 } fid
             (mkEvent db ed).id)
        | none =>
          (none, { db with events := db.events ++ [mkEvent db ed],
                           next_event_id := db.next_event_id + 1 })
      else
        (some (mkEvent db ed),
         { db with events := db.events ++ [mkEvent db ed],
                   next_event_id := db.next_event_id + 1 })) = _
    rw [if_pos h0]
    have hf1' : getFrame { db with events := db.events ++ [mkEvent db ed],
                                   next_event_id := db.next_event_id + 1 } fid =
        some f1 := hf1
    rw [hf1']
  refine ⟨undo_last_event_notfound db mid fid hnone,
    remove_events_from_frame_notfound db mid fid ids hnone,
    clear_frame_events_notfound db mid fid hnone,
    set_frame_ball_groups_notfound db mid fid g1 g2 hnone,
    by rw [hcme], ?_⟩
  rw [hcme]
  refine ⟨{ f1 with events := f1.events ++ [(mkEvent db ed).id] }, ?_, by simp [hf1id],
    by simpa using hf1mid, by simp⟩
  show _ ∈ db.frames.map (fun f =>
    if f.id = fid then
      (if (mkEvent db ed).id ∈ f.events then f
       else { f with events := f.events ++ [(mkEvent db ed).id] })
    else f)
  refine List.mem_map.mpr ⟨f1, hf1mem, ?_⟩
  rw [if_pos hf1id,
    if_neg (show ¬ (mkEvent db ed).id ∈ f1.events from hfresh f1 hf1mem)]
/-- A frame belonging to match 2, to be addressed through match 1. -/
def foreignFrame : Frame :=
  { id := 3, match_id := 2, frame_number := 1, winner := none,
    player1_ball_group := none, player2_ball_group := none, events := [] }

/-- A store whose only frame belongs to a different match than the addressed
one. -/
def foreignFrameDB : DB :=
  { profiles := [], match_list := [sampleMatch], frames := [foreignFrame],
    events := [], token_users := [], next_event_id := 10, next_frame_id := 4,
    now := 0 }

/-- A `create_event` payload addressed to the foreign-match frame 3. -/
def foreignEventData : EventData :=
  { eventType := EventType.faul, details := "", turn_number := none,
    player_id := none, ball_ids := [], frame_id := some 3 }

/-- Witness for C10: frame 3 belongs to match 2, so `undo_last_event` and
`set_frame_ball_groups` addressed through match 1 fail without mutation,
while `create_event` attaches its new event to frame 3 regardless. -/
theorem frame_match_scoping_spec_witness :
    undo_last_event foreignFrameDB 1 (some 3) =
      (OpResult.err "Frame not found", foreignFrameDB)
    ∧ set_frame_ball_groups foreignFrameDB 1 (some 3) (some "full") (some "striped") =
      (none, foreignFrameDB)
    ∧ (create_match_event foreignFrameDB foreignEventData).1 =
      some (mkEvent foreignFrameDB foreignEventData)
    ∧ ∃ f ∈ (create_match_event foreignFrameDB foreignEventData).2.frames,
        f.id = 3 ∧ ¬ f.match_id = 1
        ∧ (mkEvent foreignFrameDB foreignEventData).id ∈ f.events := by
  have h := frame_match_scoping_spec foreignFrameDB 1 3 (some "full") (some "striped")
    [] foreignEventData (by decide) (by decide) (by decide) rfl (by decide)
  exact ⟨h.1, h.2.2.2.1, h.2.2.2.2.1, h.2.2.2.2.2⟩
